import Mathlib

/-!
Shallow embedding of the wurstmapberg terrain rasterizer
(src/crate/wurstmapberg-cli/src/main.rs).

The embedding translates the data model and the body of `main` into
executable Lean definitions: the `MapColor` palette and `Tint`
multipliers, the `BlockMapColor` rule reduction, the per-column
downward scan (a fuel-driven small-step loop mirroring the Rust
`while` loop, including its `continue` control flow), the stateful
water-depth and north-neighbor scans (mirroring the closures that
reassign `col_color`), the region-scheduler group loop with its
`prev` threading and error collections, and the final error
aggregation. Machine integers are modelled as `Int`/`Nat`; the one
place where fixed-width arithmetic matters (the u16 channel
multiplication in `MapColor::tint`) carries an explicit `% 65536`.
-/

/-- The `MapColor` palette enum from main.rs lines 38-102. -/
inductive MapColor
  | Clear
  | PaleGreen
  | PaleYellow
  | WhiteGray
  | BrightRed
  | PalePurple
  | IronGray
  | DarkGreen
  | White
  | LightBlueGray
  | DirtBrown
  | StoneGray
  | WaterBlue
  | OakTan
  | OffWhite
  | Orange
  | Magenta
  | LightBlue
  | Yellow
  | Lime
  | Pink
  | Gray
  | LightGray
  | Cyan
  | Purple
  | Blue
  | Brown
  | Green
  | Red
  | Black
  | Gold
  | DiamondBlue
  | LapisBlue
  | EmeraldGreen
  | SpruceBrown
  | DarkRed
  | TerracottaWhite
  | TerracottaOrange
  | TerracottaMagenta
  | TerracottaLightBlue
  | TerracottaYellow
  | TerracottaLime
  | TerracottaPink
  | TerracottaGray
  | TerracottaLightGray
  | TerracottaCyan
  | TerracottaPurple
  | TerracottaBlue
  | TerracottaBrown
  | TerracottaGreen
  | TerracottaRed
  | TerracottaBlack
  | DullRed
  | DullPink
  | DarkCrimson
  | Teal
  | DarkAqua
  | DarkDullPink
  | BrightTeal
  | DeepslateGray
  | RawIronPink
  | LichenGreen
deriving DecidableEq

/-- The `Tint` enum from main.rs lines 104-108. -/
inductive Tint
  | Dark
  | Normal
  | Light
deriving DecidableEq

/-- `Tint::multiplier` (main.rs lines 111-117), a `u16` in the source. -/
def Tint.multiplier : Tint → Nat
  | .Dark => 180
  | .Normal => 220
  | .Light => 255

/-- The `u32` base RGB constant for each palette color, from the `match`
in `MapColor::tint` (main.rs lines 122-185); `Clear` has no constant
(the function returns early with the transparent pixel). -/
def MapColor.baseRgb : MapColor → Option Nat
  | .Clear => none
  | .PaleGreen => some 8368696
  | .PaleYellow => some 16247203
  | .WhiteGray => some 13092807
  | .BrightRed => some 16711680
  | .PalePurple => some 10526975
  | .IronGray => some 10987431
  | .DarkGreen => some 31744
  | .White => some 16777215
  | .LightBlueGray => some 10791096
  | .DirtBrown => some 9923917
  | .StoneGray => some 7368816
  | .WaterBlue => some 4210943
  | .OakTan => some 9402184
  | .OffWhite => some 16776437
  | .Orange => some 14188339
  | .Magenta => some 11685080
  | .LightBlue => some 6724056
  | .Yellow => some 15066419
  | .Lime => some 8375321
  | .Pink => some 15892389
  | .Gray => some 5000268
  | .LightGray => some 10066329
  | .Cyan => some 5013401
  | .Purple => some 8339378
  | .Blue => some 3361970
  | .Brown => some 6704179
  | .Green => some 6717235
  | .Red => some 10040115
  | .Black => some 1644825
  | .Gold => some 16445005
  | .DiamondBlue => some 6085589
  | .LapisBlue => some 4882687
  | .EmeraldGreen => some 55610
  | .SpruceBrown => some 8476209
  | .DarkRed => some 7340544
  | .TerracottaWhite => some 13742497
  | .TerracottaOrange => some 10441252
  | .TerracottaMagenta => some 9787244
  | .TerracottaLightBlue => some 7367818
  | .TerracottaYellow => some 12223780
  | .TerracottaLime => some 6780213
  | .TerracottaPink => some 10505550
  | .TerracottaGray => some 3746083
  | .TerracottaLightGray => some 8874850
  | .TerracottaCyan => some 5725276
  | .TerracottaPurple => some 8014168
  | .TerracottaBlue => some 4996700
  | .TerracottaBrown => some 4993571
  | .TerracottaGreen => some 5001770
  | .TerracottaRed => some 9321518
  | .TerracottaBlack => some 2430480
  | .DullRed => some 12398641
  | .DullPink => some 9715553
  | .DarkCrimson => some 6035741
  | .Teal => some 1474182
  | .DarkAqua => some 3837580
  | .DarkDullPink => some 5647422
  | .BrightTeal => some 1356933
  | .DeepslateGray => some 6579300
  | .RawIronPink => some 14200723
  | .LichenGreen => some 8365974

/-- An RGBA pixel (each channel a `u8`, modelled as `Nat`). -/
structure Rgba where
  r : Nat
  g : Nat
  b : Nat
  a : Nat
deriving DecidableEq

/-- One tinted channel: `(u16::from(channel) * tint.multiplier() / 255) as u8`
(main.rs line 186). The multiplication happens in `u16` (hence the
explicit `% 65536`) and the `as u8` cast is `% 256`. -/
def tintChannel (channel mult : Nat) : Nat :=
  channel * mult % 65536 / 255 % 256

/-- `MapColor::tint` (main.rs lines 121-188): `Clear` returns the fully
transparent pixel; otherwise the base `u32` is split into big-endian
bytes (the top byte is discarded), each channel is scaled by the tint
multiplier, and alpha is `u8::MAX`. -/
def MapColor.tintPixel (c : MapColor) (t : Tint) : Rgba :=
  match c.baseRgb with
  | none => ⟨0, 0, 0, 0⟩
  | some n =>
      ⟨tintChannel (n / 65536 % 256) t.multiplier,
       tintChannel (n / 256 % 256) t.multiplier,
       tintChannel (n % 256) t.multiplier,
       255⟩

/-- The `BlockMapColor` rule enum (main.rs lines 191-210). -/
inductive BlockMapColor
  | Single (color : MapColor)
  | Bed (head foot : MapColor)
  | Crops (growing grown : MapColor)
  | Pillar (top side : MapColor)
  | Waterloggable (dry wet : MapColor)
deriving DecidableEq

/-- A block: a name plus a string-keyed property map (modelled as an
association list; `mcanvil` exposes a map with `get`). -/
structure Block where
  name : String
  properties : List (String × String)

/-- Property lookup, mirroring `block.properties.get(key)`. -/
def Block.prop (b : Block) (key : String) : Option String :=
  b.properties.lookup key

/-- `Option::is_some_and` as used on property lookups. -/
def optHolds (o : Option String) (p : String → Bool) : Bool :=
  match o with
  | some v => p v
  | none => false

/-- The `BlockMapColor` rule reduction, the `match color { ... }`
repeated at main.rs lines 290-296 (and 313-319, 343-349, 382-388):
Single is unconditional; Bed checks `part == "head"`; Crops checks
`age == "7"`; Pillar checks `axis` present and not `"y"`;
Waterloggable checks `waterlogged == "true"`. -/
def reduceBlockColor (rule : BlockMapColor) (b : Block) : MapColor :=
  match rule with
  | .Single c => c
  | .Bed head foot => if optHolds (b.prop "part") (· == "head") then head else foot
  | .Crops growing grown => if optHolds (b.prop "age") (· == "7") then grown else growing
  | .Pillar top side => if optHolds (b.prop "axis") (· != "y") then side else top
  | .Waterloggable dry wet => if optHolds (b.prop "waterlogged") (· == "true") then wet else dry

/-- The Color Table: block identifier → rule (an association list
mirroring the `HashMap` built by `colors::get_block_colors`). -/
def ColorTable : Type := List (String × BlockMapColor)

/-- `block_colors.get(&block.name)`. -/
def lookupColor (tbl : ColorTable) (name : String) : Option BlockMapColor :=
  List.lookup name tbl

/-- A 16-block vertical section: `chunk.block_relative([x, y, z])`
(arguments in that order, each in `0..16`). -/
structure SectionModel where
  blockAt : Nat → Nat → Nat → Block

/-- A chunk column: position, lowest stored Y (`y_pos`), the
`"WORLD_SURFACE"` heightmap entry if present (indexed `[block_z][block_x]`),
and `section_at`. -/
structure ChunkColumn where
  xPos : Int
  zPos : Int
  yPos : Int
  worldSurface : Option (Nat → Nat → Int)
  sectionAt : Int → Option SectionModel

/-- `col.heightmaps.get("WORLD_SURFACE").unwrap_or(FALLBACK_HEIGHTMAP)`
(main.rs line 279, fallback `[[320; 16]; 16]` at line 214),
indexed `heightmap[block_z][block_x]`. -/
def ChunkColumn.heightmap (col : ChunkColumn) : Nat → Nat → Int :=
  col.worldSurface.getD (fun _ _ => 320)

/-- The block at world height `y` in column `col` at horizontal offset
`(bx, bz)`: `chunk_y = y.div_euclid(16)`, `block_y = y.rem_euclid(16)`,
then `section_at(chunk_y)` and `block_relative` (main.rs lines 285-288).
`none` when the section is unloaded. -/
def ChunkColumn.blockAt (col : ChunkColumn) (bx bz : Nat) (y : Int) : Option Block :=
  (col.sectionAt (Int.ediv y 16)).map fun s => s.blockAt bx (Int.emod y 16).toNat bz

/-- Outcome of one pass through the body of the `while y >= col.y_pos`
scan loop (main.rs lines 284-301): either the loop runs again with a
(possibly unchanged) state, or it exits. -/
inductive ScanOutcome
  | next (y : Int) (c : MapColor)
  | stop (y : Int) (c : MapColor)
deriving DecidableEq

/-- One pass through the scan-loop body (main.rs lines 284-301),
assuming the loop condition `y >= col.y_pos` held. Notably, when the
section is loaded but the block name is absent from the color table,
the source runs `continue` (line 289), which skips the `y -= 1` at the
bottom of the loop: the loop resumes with the SAME `y`. -/
def scanIter (tbl : ColorTable) (col : ChunkColumn) (bx bz : Nat)
    (y : Int) (c : MapColor) : ScanOutcome :=
  match col.blockAt bx bz y with
  | some b =>
      match lookupColor tbl b.name with
      | none => .next y c
      | some rule =>
          let cNew := reduceBlockColor rule b
          if cNew = MapColor.Clear then
            if y = col.yPos then .stop y cNew else .next (y - 1) cNew
          else .stop y cNew
  | none => if y = col.yPos then .stop y c else .next (y - 1) c

/-- Fuel-driven run of the scan loop from state `(y, c)`; `none` means
the fuel ran out (in particular, a diverging loop yields `none` for
every fuel). Returns the final `(y, col_color)` on exit. -/
def scanRun (tbl : ColorTable) (col : ChunkColumn) (bx bz : Nat) :
    Nat → Int → MapColor → Option (Int × MapColor)
  | 0, _, _ => none
  | fuel + 1, y, c =>
      if y < col.yPos then some (y, c)
      else
        match scanIter tbl col bx bz y c with
        | .stop yq cq => some (yq, cq)
        | .next yq cq => scanRun tbl col bx bz fuel yq cq

/-- The §4.1 resolver: the scan starts at `heightmap[block_z][block_x]`
with `col_color = Clear` (main.rs lines 282-283). -/
def resolveColumn (tbl : ColorTable) (col : ChunkColumn) (bx bz : Nat)
    (fuel : Nat) : Option (Int × MapColor) :=
  scanRun tbl col bx bz fuel (col.heightmap bz bx) MapColor.Clear

/-- The descending inclusive range `(lo..=hi).rev()` as a list:
`[hi, hi-1, ..., lo]`, empty when `hi < lo`. -/
def revRange (lo hi : Int) : List Int :=
  (List.range (hi + 1 - lo).toNat).map fun i => hi - i

/-- The waterlogged test `block.properties.get("waterlogged").is_some_and(|w| w == "true")`. -/
def Block.isWaterlogged (b : Block) : Bool :=
  optHolds (b.prop "waterlogged") (· == "true")

/-- The water-depth scan (main.rs lines 307-324):
`(col.y_pos..=y).rev().take_while(closure).count()` where the closure
reassigns the outer `col_color` before testing
`col_color == WaterBlue || waterlogged`. Returns the count together
with the final value of `col_color` (the closure's mutation is
observable because line 404 draws `col_color`). -/
def waterDepthLoop (tbl : ColorTable) (blockAt : Int → Option Block) :
    List Int → MapColor → Nat × MapColor
  | [], c => (0, c)
  | y :: ys, c =>
      match blockAt y with
      | none => (0, c)
      | some b =>
          match lookupColor tbl b.name with
          | none => (0, c)
          | some rule =>
              let cNew := reduceBlockColor rule b
              if cNew = MapColor.WaterBlue ∨ b.isWaterlogged then
                let r := waterDepthLoop tbl blockAt ys cNew
                (r.1 + 1, r.2)
              else (0, cNew)

/-- The water-depth → tint threshold table (main.rs lines 325-331). -/
def waterTint (depth : Nat) (bx bz : Nat) : Tint :=
  if depth ≤ 2 then .Light
  else if depth ≤ 4 then (if (bx + bz) % 2 = 0 then .Light else .Normal)
  else if depth ≤ 6 then .Normal
  else if depth ≤ 9 then (if (bx + bz) % 2 = 0 then .Normal else .Dark)
  else .Dark

/-- The stateful neighbor height scan
`(y_lo..=y_hi).rev().find(closure)` (main.rs lines 337-354 and
376-393): the closure reassigns the outer `col_color` to each
re-resolved color and stops at the first non-`Clear` one. Returns the
found Y (if any) together with the final value of `col_color`. -/
def findTopNonClear (tbl : ColorTable) (blockAt : Int → Option Block) :
    List Int → MapColor → Option Int × MapColor
  | [], c => (none, c)
  | y :: ys, c =>
      match blockAt y with
      | none => findTopNonClear tbl blockAt ys c
      | some b =>
          match lookupColor tbl b.name with
          | none => findTopNonClear tbl blockAt ys c
          | some rule =>
              let cNew := reduceBlockColor rule b
              if cNew = MapColor.Clear then findTopNonClear tbl blockAt ys cNew
              else (some y, cNew)

/-- The relief comparison (main.rs lines 396-401):
`north_neighbor = option.unwrap_or(y)` then
`match y.cmp(&north_neighbor) { Less => Dark, Equal => Normal, Greater => Light }`. -/
def reliefTint (y : Int) (neighbor : Option Int) : Tint :=
  let n := neighbor.getD y
  if y < n then .Dark else if y = n then .Normal else .Light

/-- A decoded region as seen by the neighbor lookup: its coordinates
and `chunk_column` accessor (`Ok(Some)/Ok(None)/Err`). Errors are
modelled as strings. -/
structure RegionModel where
  coords : Int × Int
  chunkColumn : Int × Int → Except String (Option ChunkColumn)

/-- Result of processing one block column (the body of the inner loops,
main.rs lines 282-405): the color/tint pair that is drawn, or an early
return of the whole region after a neighbor-column decode error
(lines 369-372). `processColumn` returns `none` when the scan fuel
runs out. -/
inductive ColumnResult
  | drawn (c : MapColor) (t : Tint)
  | abortRegion (e : String)
deriving DecidableEq

/-- One block column end to end (main.rs lines 282-405): resolve via the
downward scan, then dispatch on the resolved color: `Clear` → Normal
tint; `WaterBlue` → water-depth scan and threshold table; otherwise the
north-neighbor relief comparison (same chunk when `block_z > 0`, else
same region when `z_pos.rem_euclid(32) > 0`, else the threaded `prev`
region, else no neighbor). The drawn color is the final value of the
`col_color` variable, which the water and neighbor scans may have
reassigned. -/
def processColumn (tbl : ColorTable) (region : RegionModel)
    (prev : Option RegionModel) (col : ChunkColumn) (bx bz : Nat)
    (fuel : Nat) : Option ColumnResult :=
  match resolveColumn tbl col bx bz fuel with
  | none => none
  | some (y, c0) =>
      if c0 = MapColor.Clear then some (.drawn c0 .Normal)
      else if c0 = MapColor.WaterBlue then
        let r := waterDepthLoop tbl (col.blockAt bx bz) (revRange col.yPos y) c0
        some (.drawn r.2 (waterTint r.1 bx bz))
      else
        if bz = 0 then
          match (if Int.emod col.zPos 32 > 0 then some region else prev) with
          | none => some (.drawn c0 (reliefTint y none))
          | some nr =>
              match nr.chunkColumn (col.xPos, col.zPos - 1) with
              | .error e => some (.abortRegion e)
              | .ok none => some (.drawn c0 (reliefTint y none))
              | .ok (some ncol) =>
                  let r := findTopNonClear tbl (ncol.blockAt bx 15)
                    (revRange ncol.yPos (ncol.heightmap 15 bx)) c0
                  some (.drawn r.2 (reliefTint y r.1))
        else
          let r := findTopNonClear tbl (col.blockAt bx (bz - 1))
            (revRange col.yPos (col.heightmap (bz - 1) bx)) c0
          some (.drawn r.2 (reliefTint y r.1))

/-- A region as seen by the scheduler: coordinates plus the outcome of
decoding each of its chunk columns in iteration order (`for col in
&region`, main.rs line 271). The scheduler model tracks decode
success/failure per column; the per-column drawing itself is modelled
by `processColumn`. -/
structure SchedRegion where
  coords : Int × Int
  colResults : List (Except String Unit)

/-- The result of `Region::find(world_dir, DIMENSION, [x, z])`
(main.rs lines 258-265): `Ok(Some(region))`, `Ok(None)`, or `Err(e)`. -/
inductive FindResult
  | found (r : SchedRegion)
  | missing
  | decodeErr (e : String)

/-- The world as the scheduler sees it: what `Region::find` returns at
each coordinate. -/
structure WorldModel where
  find : Int → Int → FindResult

/-- The fatal scheduling error `Error::RegionNotFound` (main.rs lines 232-233). -/
inductive RunFatal
  | regionNotFound
deriving DecidableEq

/-- The first column-decode error hit while iterating a region's
columns (main.rs lines 272-278); `none` when every column decodes. -/
def firstColErr : List (Except String Unit) → Option String
  | [] => none
  | .ok _ :: rest => firstColErr rest
  | .error e :: _ => some e

/-- Shared scheduler state: the two keyed error collections
(`region_errors`, `col_errors`, modelled as insertion-ordered lists),
the set of PNGs saved so far, and a trace recording, for each region
processed, which `prev` handle (by coordinates) was in scope while its
columns were drawn. -/
structure GroupState where
  regionErrs : List ((Int × Int) × String)
  colErrs : List ((Int × Int) × String)
  pngs : List (Int × Int)
  prevTrace : List ((Int × Int) × Option (Int × Int))
deriving DecidableEq

/-- The empty scheduler state. -/
def GroupState.init : GroupState := ⟨[], [], [], []⟩

/-- One east-west group (main.rs lines 255-413): iterate the group's z
coordinates in order, threading `prev`. `Ok(None)` from `Region::find`
returns the fatal `RegionNotFound` (line 260); `Err` records a
region-level error and returns `Ok(())`, ending the group (lines
261-264); a column-decode error records a column-level error keyed by
the REGION coordinates and skips the rest of that region, so its PNG
is not saved, but the group continues with `prev` set to the
partially-drawn region (lines 272-278, 408-410); otherwise the
region's PNG is saved. -/
def runGroup (w : WorldModel) (x : Int) :
    List Int → Option SchedRegion → GroupState → GroupState × Option RunFatal
  | [], _, s => (s, none)
  | z :: zs, prev, s =>
      match w.find x z with
      | .missing => (s, some .regionNotFound)
      | .decodeErr e =>
          ({ s with regionErrs := s.regionErrs ++ [((x, z), e)] }, none)
      | .found r =>
          let s1 := { s with prevTrace := s.prevTrace ++ [((x, z), Option.map SchedRegion.coords prev)] }
          match firstColErr r.colResults with
          | some e =>
              runGroup w x zs (some r) { s1 with colErrs := s1.colErrs ++ [((x, z), e)] }
          | none =>
              runGroup w x zs (some r) { s1 with pngs := s1.pngs ++ [(x, z)] }

/-- All groups (main.rs lines 249-415): each group starts with
`prev = None`; the first fatal group error aborts the run
(`renderers.try_next().await?`). -/
def runAll (w : WorldModel) : List (Int × List Int) → GroupState → GroupState × Option RunFatal
  | [], s => (s, none)
  | (x, zs) :: gs, s =>
      match runGroup w x zs none s with
      | (s1, some f) => (s1, some f)
      | (s1, none) => runAll w gs s1

/-- The aggregated program error (main.rs lines 222-236, restricted to
the variants the scheduler produces). -/
inductive RunError
  | regions (errs : List ((Int × Int) × String))
  | cols (errs : List ((Int × Int) × String))
  | regionNotFound
deriving DecidableEq

/-- The final aggregation (main.rs lines 416-424): region-level errors
first, then column-level errors, else success. -/
def finishRun (s : GroupState) : Except RunError Unit :=
  if s.regionErrs ≠ [] then .error (.regions s.regionErrs)
  else if s.colErrs ≠ [] then .error (.cols s.colErrs)
  else .ok ()

/-- The whole run: schedule every group, then aggregate (a fatal error
propagates immediately instead). -/
def runWorld (w : WorldModel) (groups : List (Int × List Int)) :
    GroupState × Except RunError Unit :=
  match runAll w groups GroupState.init with
  | (s, some .regionNotFound) => (s, .error .regionNotFound)
  | (s, none) => (s, finishRun s)

/-- The representative error used in the `Display` impls of
`Error::Regions` and `Error::Cols` (main.rs lines 228 and 234):
the first value of the keyed collection. -/
def representativeErr : RunError → Option String
  | .regions errs => errs.head?.map (·.2)
  | .cols errs => errs.head?.map (·.2)
  | .regionNotFound => none

/-- Sorted insertion, modelling `BTreeSet::insert` on the per-group z
set (main.rs line 247): ascending order, duplicates ignored. -/
def insertSorted (z : Int) : List Int → List Int
  | [] => [z]
  | a :: rest =>
      if z < a then z :: a :: rest
      else if z = a then a :: rest
      else a :: insertSorted z rest

/-- The `(coords, prev-handle coords)` trace produced by an all-success
group that starts with handle `p` (reference shape for `prevTrace`):
each region's handle is the coordinates of the region processed
immediately before it. -/
def chainTrace (x : Int) : List Int → Option (Int × Int) → List ((Int × Int) × Option (Int × Int))
  | [], _ => []
  | z :: zs, p => ((x, z), p) :: chainTrace x zs (some (x, z))

/-- Formalization of claim C6's description of the handle: every entry
of the trace holds the region immediately north, `[rx, rz-1]`, when
that coordinate is in the group, and no handle otherwise. -/
def prevIsImmediateNorth (zs : List Int)
    (trace : List ((Int × Int) × Option (Int × Int))) : Prop :=
  ∀ p ∈ trace, p.2 = if p.1.2 - 1 ∈ zs then some (p.1.1, p.1.2 - 1) else none

/-- The fixed tile size `16 * 32` (main.rs line 270). -/
def regionImgSize : Nat := 16 * 32

/-- The pixel index written for world block coordinates `(x, z)`:
`(x.rem_euclid(16 * 32) as u32, z.rem_euclid(16 * 32) as u32)`
(main.rs line 404). -/
def tileIndex (x z : Int) : Nat × Nat :=
  ((Int.emod x (16 * 32)).toNat, (Int.emod z (16 * 32)).toNat)

/-- The world block coordinates of a block column (main.rs lines 302-303). -/
def columnWorldCoords (col : ChunkColumn) (bx bz : Nat) : Int × Int :=
  (col.xPos * 16 + bx, col.zPos * 16 + bz)

/-- A tile canvas as a pixel map. `RgbaImage::new` zero-fills, so the
fresh canvas is fully transparent. -/
def emptyCanvas : Nat × Nat → Rgba := fun _ => ⟨0, 0, 0, 0⟩

/-- One canvas write `region_img[tileIndex] = pixel` (main.rs line 404). -/
def writePixel (img : Nat × Nat → Rgba) (x z : Int) (p : Rgba) :
    Nat × Nat → Rgba :=
  fun q => if q = tileIndex x z then p else img q

/-- The output file name `format!("r.{}.{}.png", coords[0], coords[1])`
(main.rs line 408). -/
def pngName (rx rz : Int) : String :=
  "r." ++ toString rx ++ "." ++ toString rz ++ ".png"

/-- Claim C4's stated per-level condition, following the claim's words:
the level's re-resolved color is WaterBlue, or its block has property
`waterlogged = "true"`; an unloaded section stops the count. (A block
absent from the Color Table has no re-resolved color.) -/
def claimedWaterCond (tbl : ColorTable) (blockAt : Int → Option Block) (y : Int) : Bool :=
  match blockAt y with
  | none => false
  | some b =>
      (match lookupColor tbl b.name with
       | some rule => reduceBlockColor rule b = MapColor.WaterBlue
       | none => false)
      || b.isWaterlogged

/-- Claim C4's stated depth: consecutive levels satisfying
`claimedWaterCond`, from the scan's stop Y downward. -/
def claimedWaterDepth (tbl : ColorTable) (blockAt : Int → Option Block)
    (ys : List Int) : Nat :=
  (ys.takeWhile (claimedWaterCond tbl blockAt)).length

/-- The per-level condition the source actually tests (main.rs lines
310-323): the section must be loaded AND the block must be present in
the Color Table, and then its re-resolved color is WaterBlue or it is
waterlogged. -/
def codeWaterCond (tbl : ColorTable) (blockAt : Int → Option Block) (y : Int) : Bool :=
  match blockAt y with
  | none => false
  | some b =>
      match lookupColor tbl b.name with
      | none => false
      | some rule =>
          reduceBlockColor rule b = MapColor.WaterBlue || b.isWaterlogged

/-- A color table for the divergence example: empty, so every block
identifier is absent from it. -/
def tblUnknown : ColorTable := []

/-- A column whose single stored level (y = 0) is loaded and holds a
block (`"mystery"`) absent from the color table. -/
def colUnknownTop : ChunkColumn :=
  { xPos := 0
    zPos := 0
    yPos := 0
    worldSurface := some fun _ _ => 0
    sectionAt := fun i =>
      if i = 0 then some ⟨fun _ _ _ => ⟨"mystery", []⟩⟩ else none }

/-- Color table for the color-leak example: stone is a Single rule,
seagrass is Waterloggable with `dry = Clear`. -/
def tblLeak : ColorTable :=
  [("stone", .Single .StoneGray), ("seagrass", .Waterloggable .Clear .WaterBlue)]

/-- A column whose row `block_z = 1` has stone on top (resolving to
`StoneGray`) and whose row `block_z = 0` (the north neighbor examined
by the relief scan) has only a dry seagrass block, which re-resolves
to `Clear`. -/
def colLeak : ChunkColumn :=
  { xPos := 0
    zPos := 0
    yPos := 0
    worldSurface := some fun _ _ => 0
    sectionAt := fun i =>
      if i = 0 then
        some ⟨fun _ _ bz => if bz = 1 then ⟨"stone", []⟩ else ⟨"seagrass", []⟩⟩
      else none }

/-- A region handle that is never consulted. -/
def regionTriv : RegionModel := ⟨(0, 0), fun _ => .ok none⟩

/-- A column with no loaded sections at all (scan falls through to the
floor and stays `Clear`). -/
def colAllAir : ChunkColumn :=
  { xPos := 0
    zPos := 0
    yPos := 0
    worldSurface := some fun _ _ => 1
    sectionAt := fun _ => none }

/-- Color table for the water-depth example. -/
def tblWater : ColorTable := [("water", .Single .WaterBlue)]

/-- Vertical data for the water-depth example: water at y = 1, and at
y = 0 a block absent from the color table that carries
`waterlogged = "true"`. -/
def blockAtWater : Int → Option Block :=
  fun y => if y = 1 then some ⟨"water", []⟩ else some ⟨"odd_kelp", [("waterlogged", "true")]⟩

/-- A world where every region decodes and has no columns (so every
region draws successfully). -/
def wAllOk : WorldModel := ⟨fun x z => .found ⟨(x, z), []⟩⟩

/-- A world where region (0, 1) has one column that fails to decode and
everything else succeeds. -/
def wOneColFail : WorldModel :=
  ⟨fun x z =>
    if x = 0 ∧ z = 1 then .found ⟨(0, 1), [.ok (), .error "boom"]⟩
    else .found ⟨(x, z), []⟩⟩

/-- A world where every listed region has vanished by the time it is
opened. -/
def wVanished : WorldModel := ⟨fun _ _ => .missing⟩

/-- A column of nothing but water: used to exercise the water branch. -/
def colWater : ChunkColumn :=
  { xPos := 0
    zPos := 0
    yPos := 0
    worldSurface := some fun _ _ => 1
    sectionAt := fun i =>
      if i = 0 then some ⟨fun _ _ _ => ⟨"water", []⟩⟩ else none }

/-- A world where every region's container fails to decode. -/
def wBadRegion : WorldModel := ⟨fun _ _ => .decodeErr "corrupt"⟩

/-- A stone column in a chunk row away from the region's northern edge
(`z_pos.rem_euclid(32) = 1 > 0`): its `block_z = 0` columns look up
the north neighbor chunk in the same region. -/
def colStoneMid : ChunkColumn :=
  { xPos := 0
    zPos := 1
    yPos := 0
    worldSurface := some fun _ _ => 0
    sectionAt := fun i =>
      if i = 0 then some ⟨fun _ _ _ => ⟨"stone", []⟩⟩ else none }

/-- A stone column in a chunk row on the region's northern edge
(`z_pos.rem_euclid(32) = 0`): its `block_z = 0` columns look up the
north neighbor chunk in the threaded previous region. -/
def colStoneEdge : ChunkColumn :=
  { xPos := 0
    zPos := 32
    yPos := 0
    worldSurface := some fun _ _ => 0
    sectionAt := fun i =>
      if i = 0 then some ⟨fun _ _ _ => ⟨"stone", []⟩⟩ else none }

/-- A region whose `chunk_column` lookup always yields the stone
column (a resolvable north neighbor). -/
def regionWithNeighbor : RegionModel := ⟨(0, 0), fun _ => .ok (some colStoneMid)⟩

/-- A region whose `chunk_column` lookup yields a column with no
loaded sections (a neighbor whose height scan finds no non-Clear
block). -/
def regionAirNeighbor : RegionModel := ⟨(0, 0), fun _ => .ok (some colAllAir)⟩

/-- One loop pass on `colUnknownTop` makes no progress: the unknown
block hits the `continue` before the `y -= 1`. -/
lemma scanRun_unknown_step (n : Nat) :
    scanRun tblUnknown colUnknownTop 0 0 (n + 1) 0 MapColor.Clear =
      scanRun tblUnknown colUnknownTop 0 0 n 0 MapColor.Clear := rfl

/-- The scan on `colUnknownTop` exhausts any amount of fuel. -/
lemma scanRun_unknown_none (fuel : Nat) :
    scanRun tblUnknown colUnknownTop 0 0 fuel 0 MapColor.Clear = none := by
  induction fuel with
  | zero => rfl
  | succ n ih => rw [scanRun_unknown_step]; exact ih

/-- C1: the claim says that a loaded block absent from the Color Table
is transparent to the scan (the scan proceeds to Y-1) and that the scan
always terminates. The code disagrees: the `let ... else { continue }`
at main.rs line 289 skips the `y -= 1` at the bottom of the `while`
loop, so on a column whose examined block is loaded but absent from the
table the loop re-examines the same Y forever. Concretely, with an
empty color table and a column whose only stored level holds the block
`"mystery"`, one loop pass returns to the same state `(y = 0, Clear)`
instead of moving to Y-1, and the resolver terminates under no fuel
bound. -/
theorem c1_unknown_block_scan_diverges :
    scanIter tblUnknown colUnknownTop 0 0 0 MapColor.Clear = .next 0 MapColor.Clear ∧
    (∀ fuel : Nat, resolveColumn tblUnknown colUnknownTop 0 0 fuel = none) :=
  ⟨rfl, fun fuel => scanRun_unknown_none fuel⟩

/-- C2: the claim says the pixel drawn is always tinted from the
column's own resolved color, and that a column resolved to a non-Clear
color is never drawn as Clear. The code disagrees: the north-neighbor
height scan (and likewise the water-depth scan) reassigns the shared
`col_color` variable (main.rs lines 343-349), and line 404 draws that
variable's final value. Concretely: a column whose own scan resolves
`StoneGray`, with a north neighbor whose only candidate block is a dry
seagrass-like block re-resolving to `Clear`, is drawn fully
transparent (`Clear`), not `StoneGray`. -/
theorem c2_drawn_color_leaks :
    resolveColumn tblLeak colLeak 0 1 5 = some (0, MapColor.StoneGray) ∧
    MapColor.StoneGray ≠ MapColor.Clear ∧
    processColumn tblLeak regionTriv none colLeak 0 1 5 =
      some (.drawn MapColor.Clear .Normal) ∧
    MapColor.tintPixel MapColor.Clear .Normal = ⟨0, 0, 0, 0⟩ :=
  ⟨rfl, by decide, by decide, rfl⟩

/-- C3: every Color Table rule reduces purely from the examined block's
own property mapping, exactly as claimed: Single unconditionally; Bed
head iff `part = "head"` else foot; Crops grown iff `age = "7"` else
growing; Pillar side iff `axis` present and not `"y"` else top;
Waterloggable wet iff `waterlogged = "true"` else dry; an absent
property selects foot/growing/top/dry. -/
theorem c3_rule_reduction :
    ∀ (b : Block) (c hd ft gg gn tp sd dr wt : MapColor),
      reduceBlockColor (.Single c) b = c ∧
      (b.prop "part" = some "head" → reduceBlockColor (.Bed hd ft) b = hd) ∧
      (∀ v, b.prop "part" = some v → v ≠ "head" → reduceBlockColor (.Bed hd ft) b = ft) ∧
      (b.prop "part" = none → reduceBlockColor (.Bed hd ft) b = ft) ∧
      (b.prop "age" = some "7" → reduceBlockColor (.Crops gg gn) b = gn) ∧
      (∀ v, b.prop "age" = some v → v ≠ "7" → reduceBlockColor (.Crops gg gn) b = gg) ∧
      (b.prop "age" = none → reduceBlockColor (.Crops gg gn) b = gg) ∧
      (∀ v, b.prop "axis" = some v → v ≠ "y" → reduceBlockColor (.Pillar tp sd) b = sd) ∧
      (b.prop "axis" = some "y" → reduceBlockColor (.Pillar tp sd) b = tp) ∧
      (b.prop "axis" = none → reduceBlockColor (.Pillar tp sd) b = tp) ∧
      (b.prop "waterlogged" = some "true" → reduceBlockColor (.Waterloggable dr wt) b = wt) ∧
      (∀ v, b.prop "waterlogged" = some v → v ≠ "true" → reduceBlockColor (.Waterloggable dr wt) b = dr) ∧
      (b.prop "waterlogged" = none → reduceBlockColor (.Waterloggable dr wt) b = dr) := by
  intro b c hd ft gg gn tp sd dr wt
  refine ⟨rfl, ?_, ?_, ?_, ?_, ?_, ?_, ?_, ?_, ?_, ?_, ?_, ?_⟩
  · intro h; simp [reduceBlockColor, optHolds, h]
  · intro v h hv; simp [reduceBlockColor, optHolds, h, hv]
  · intro h; simp [reduceBlockColor, optHolds, h]
  · intro h; simp [reduceBlockColor, optHolds, h]
  · intro v h hv; simp [reduceBlockColor, optHolds, h, hv]
  · intro h; simp [reduceBlockColor, optHolds, h]
  · intro v h hv; simp [reduceBlockColor, optHolds, h, hv]
  · intro h; simp [reduceBlockColor, optHolds, h]
  · intro h; simp [reduceBlockColor, optHolds, h]
  · intro h; simp [reduceBlockColor, optHolds, h]
  · intro v h hv; simp [reduceBlockColor, optHolds, h, hv]
  · intro h; simp [reduceBlockColor, optHolds, h]

/-- Witness for C3 at concrete blocks: a bed head, a grown crop, a
sideways pillar, a waterlogged block, and a pillar with no axis. -/
theorem c3_rule_reduction_witness :
    reduceBlockColor (.Bed .Red .White) ⟨"bed", [("part", "head")]⟩ = .Red ∧
    reduceBlockColor (.Crops .PaleGreen .DarkGreen) ⟨"wheat", [("age", "7")]⟩ = .DarkGreen ∧
    reduceBlockColor (.Pillar .OakTan .SpruceBrown) ⟨"log", [("axis", "x")]⟩ = .SpruceBrown ∧
    reduceBlockColor (.Waterloggable .StoneGray .WaterBlue) ⟨"slab", [("waterlogged", "true")]⟩ = .WaterBlue ∧
    reduceBlockColor (.Pillar .OakTan .SpruceBrown) ⟨"log", []⟩ = .OakTan := by
  refine ⟨?_, ?_, ?_, ?_, ?_⟩
  · exact (c3_rule_reduction ⟨"bed", [("part", "head")]⟩ .Clear .Red .White .Clear .Clear .Clear .Clear .Clear .Clear).2.1 rfl
  · exact (c3_rule_reduction ⟨"wheat", [("age", "7")]⟩ .Clear .Clear .Clear .PaleGreen .DarkGreen .Clear .Clear .Clear .Clear).2.2.2.2.1 rfl
  · exact (c3_rule_reduction ⟨"log", [("axis", "x")]⟩ .Clear .Clear .Clear .Clear .Clear .OakTan .SpruceBrown .Clear .Clear).2.2.2.2.2.2.2.1 "x" rfl (by decide)
  · exact (c3_rule_reduction ⟨"slab", [("waterlogged", "true")]⟩ .Clear .Clear .Clear .Clear .Clear .Clear .Clear .StoneGray .WaterBlue).2.2.2.2.2.2.2.2.2.2.1 rfl
  · exact (c3_rule_reduction ⟨"log", []⟩ .Clear .Clear .Clear .Clear .Clear .OakTan .SpruceBrown .Clear .Clear).2.2.2.2.2.2.2.2.2.1 rfl

/-- Every tint multiplier is at most 255. -/
lemma Tint.multiplier_le (t : Tint) : t.multiplier ≤ 255 := by
  cases t <;> decide

/-- For a channel below 256 and a multiplier at most 255, the u16
product does not wrap, the result fits a u8, and scaling never
increases the channel. -/
lemma tintChannel_eq (ch m : Nat) (h1 : ch < 256) (h2 : m ≤ 255) :
    tintChannel ch m = ch * m / 255 ∧ ch * m < 65536 ∧ ch * m / 255 ≤ ch := by
  have hmul : ch * m < 65536 := by
    calc ch * m ≤ 255 * 255 := Nat.mul_le_mul (Nat.le_of_lt_succ h1) h2
      _ < 65536 := by norm_num
  have hdiv : ch * m / 255 ≤ ch := by
    calc ch * m / 255 ≤ ch * 255 / 255 :=
          Nat.div_le_div_right (Nat.mul_le_mul_left ch h2)
      _ = ch := Nat.mul_div_cancel ch (by norm_num)
  refine ⟨?_, hmul, hdiv⟩
  unfold tintChannel
  rw [Nat.mod_eq_of_lt hmul, Nat.mod_eq_of_lt (lt_of_le_of_lt hdiv h1)]

/-- The tinted pixel of any color with a base constant `n`, with its
overflow-freedom and channel bounds. -/
lemma tintPixel_spec (c : MapColor) (n : Nat) (t : Tint) (h : c.baseRgb = some n) :
    c.tintPixel t =
      ⟨n / 65536 % 256 * t.multiplier / 255,
       n / 256 % 256 * t.multiplier / 255,
       n % 256 * t.multiplier / 255, 255⟩ ∧
    n / 65536 % 256 * t.multiplier < 65536 ∧
    n / 256 % 256 * t.multiplier < 65536 ∧
    n % 256 * t.multiplier < 65536 ∧
    n / 65536 % 256 * t.multiplier / 255 ≤ n / 65536 % 256 ∧
    n / 256 % 256 * t.multiplier / 255 ≤ n / 256 % 256 ∧
    n % 256 * t.multiplier / 255 ≤ n % 256 := by
  have s1 := tintChannel_eq (n / 65536 % 256) t.multiplier
    (Nat.mod_lt _ (by norm_num)) (Tint.multiplier_le t)
  have s2 := tintChannel_eq (n / 256 % 256) t.multiplier
    (Nat.mod_lt _ (by norm_num)) (Tint.multiplier_le t)
  have s3 := tintChannel_eq (n % 256) t.multiplier
    (Nat.mod_lt _ (by norm_num)) (Tint.multiplier_le t)
  refine ⟨?_, s1.2.1, s2.2.1, s3.2.1, s1.2.2, s2.2.2, s3.2.2⟩
  unfold MapColor.tintPixel
  rw [h]
  simp only [s1.1, s2.1, s3.1]

/-- C10: the tint multipliers are Dark = 180 < Normal = 220 <
Light = 255; `Clear` maps to the fully transparent pixel under every
tint; every other color has a base constant, and each tinted channel
equals `floor(base_channel * multiplier / 255)` with the u16 product
never wrapping, the result never exceeding the base channel, and
alpha 255. -/
theorem c10_tint_arithmetic :
    (Tint.Dark.multiplier = 180 ∧ Tint.Normal.multiplier = 220 ∧
     Tint.Light.multiplier = 255 ∧
     Tint.Dark.multiplier < Tint.Normal.multiplier ∧
     Tint.Normal.multiplier < Tint.Light.multiplier) ∧
    (∀ t, MapColor.Clear.tintPixel t = ⟨0, 0, 0, 0⟩) ∧
    (∀ (c : MapColor) (t : Tint), c ≠ .Clear → ∃ n, c.baseRgb = some n ∧
      c.tintPixel t =
        ⟨n / 65536 % 256 * t.multiplier / 255,
         n / 256 % 256 * t.multiplier / 255,
         n % 256 * t.multiplier / 255, 255⟩ ∧
      n / 65536 % 256 * t.multiplier < 65536 ∧
      n / 256 % 256 * t.multiplier < 65536 ∧
      n % 256 * t.multiplier < 65536 ∧
      n / 65536 % 256 * t.multiplier / 255 ≤ n / 65536 % 256 ∧
      n / 256 % 256 * t.multiplier / 255 ≤ n / 256 % 256 ∧
      n % 256 * t.multiplier / 255 ≤ n % 256) := by
  refine ⟨⟨rfl, rfl, rfl, by decide, by decide⟩, fun t => rfl, ?_⟩
  intro c t hc
  cases c
  case Clear => exact absurd rfl hc
  all_goals exact ⟨_, rfl, tintPixel_spec _ _ t rfl⟩

/-- Witness for C10 at `StoneGray` under the `Dark` tint. -/
theorem c10_tint_arithmetic_witness :
    ∃ n, MapColor.StoneGray.baseRgb = some n ∧
      MapColor.StoneGray.tintPixel .Dark =
        ⟨n / 65536 % 256 * Tint.Dark.multiplier / 255,
         n / 256 % 256 * Tint.Dark.multiplier / 255,
         n % 256 * Tint.Dark.multiplier / 255, 255⟩ ∧
      n / 65536 % 256 * Tint.Dark.multiplier < 65536 ∧
      n / 256 % 256 * Tint.Dark.multiplier < 65536 ∧
      n % 256 * Tint.Dark.multiplier < 65536 ∧
      n / 65536 % 256 * Tint.Dark.multiplier / 255 ≤ n / 65536 % 256 ∧
      n / 256 % 256 * Tint.Dark.multiplier / 255 ≤ n / 256 % 256 ∧
      n % 256 * Tint.Dark.multiplier / 255 ≤ n % 256 :=
  c10_tint_arithmetic.2.2 MapColor.StoneGray Tint.Dark (by decide)

/-- C7: after all groups complete (no fatal error), the run succeeds
iff both error collections are empty, and otherwise fails wrapping a
recorded collection, region-level first. In particular, in a world
where exactly one column (in region (0,1)) fails to decode and all
else succeeds, PNGs are produced for every other region and the run
exits with exactly that one column-decode error, whose representative
message is the recorded one. -/
theorem c7_error_aggregation :
    (∀ s : GroupState, finishRun s = .ok () ↔ s.regionErrs = [] ∧ s.colErrs = []) ∧
    (∀ s : GroupState, s.regionErrs ≠ [] → finishRun s = .error (.regions s.regionErrs)) ∧
    (∀ s : GroupState, s.regionErrs = [] → s.colErrs ≠ [] →
      finishRun s = .error (.cols s.colErrs)) ∧
    ((runWorld wOneColFail [(0, [0, 1, 2]), (1, [5])]).2 =
        .error (.cols [((0, 1), "boom")]) ∧
      (runWorld wOneColFail [(0, [0, 1, 2]), (1, [5])]).1.pngs =
        [(0, 0), (0, 2), (1, 5)] ∧
      (runWorld wOneColFail [(0, [0, 1, 2]), (1, [5])]).1.regionErrs = [] ∧
      (runWorld wOneColFail [(0, [0, 1, 2]), (1, [5])]).1.colErrs =
        [((0, 1), "boom")] ∧
      representativeErr (.cols [((0, 1), "boom")]) = some "boom") := by
  refine ⟨?_, ?_, ?_, rfl, rfl, rfl, rfl, rfl⟩
  · intro s
    unfold finishRun
    constructor
    · intro h
      by_cases h1 : s.regionErrs = []
      · by_cases h2 : s.colErrs = []
        · exact ⟨h1, h2⟩
        · simp [h1, h2] at h
      · simp [h1] at h
    · rintro ⟨h1, h2⟩
      simp [h1, h2]
  · intro s h
    unfold finishRun
    simp [h]
  · intro s h1 h2
    unfold finishRun
    simp [h1, h2]

/-- Witness for C7: a state with one recorded region error is
aggregated as a region-level failure. -/
theorem c7_error_aggregation_witness :
    finishRun ⟨[((0, 0), "bad")], [((1, 1), "col")], [], []⟩ =
      .error (.regions [((0, 0), "bad")]) :=
  c7_error_aggregation.2.1 ⟨[((0, 0), "bad")], [((1, 1), "col")], [], []⟩ (by decide)

/-- C8: opening a listed region distinguishes the two failures: a
vanished region (`Ok(None)`) makes the group return the fatal
`RegionNotFound`, which aborts the whole run; a region whose container
fails to decode (`Err`) is recorded into the region-level collection
keyed by the region's coordinates and the group returns successfully,
with no PNG drawn for that region. -/
theorem c8_region_open_failures :
    (∀ (w : WorldModel) (x z : Int) (zs : List Int) (prev : Option SchedRegion) (s : GroupState),
      w.find x z = .missing →
      runGroup w x (z :: zs) prev s = (s, some .regionNotFound)) ∧
    (∀ (w : WorldModel) (x z : Int) (zs : List Int) (prev : Option SchedRegion) (s : GroupState) (e : String),
      w.find x z = .decodeErr e →
      runGroup w x (z :: zs) prev s =
        ({ s with regionErrs := s.regionErrs ++ [((x, z), e)] }, none)) ∧
    runWorld wVanished [(0, [0])] = (GroupState.init, .error .regionNotFound) ∧
    (runWorld wBadRegion [(0, [0])]).2 = .error (.regions [((0, 0), "corrupt")]) ∧
    (runWorld wBadRegion [(0, [0])]).1.pngs = [] := by
  refine ⟨?_, ?_, rfl, rfl, rfl⟩
  · intro w x z zs prev s h
    unfold runGroup
    rw [h]
  · intro w x z zs prev s e h
    unfold runGroup
    rw [h]

/-- Witness for C8: both failure modes at concrete worlds. -/
theorem c8_region_open_failures_witness :
    runGroup wVanished 0 [0] none GroupState.init =
      (GroupState.init, some .regionNotFound) ∧
    runGroup wBadRegion 0 [0] none GroupState.init =
      ({ GroupState.init with regionErrs := [((0, 0), "corrupt")] }, none) := by
  constructor
  · exact c8_region_open_failures.1 wVanished 0 0 [] none GroupState.init rfl
  · exact c8_region_open_failures.2.1 wBadRegion 0 0 [] none GroupState.init "corrupt" rfl

/-- C9: the tile canvas is 512x512 and created fully transparent per
region; the write index for world coordinates `(x, z)` is the pair of
Euclidean remainders `(x mod 512, z mod 512)`, which is in range and
correct also for negative coordinates (the remainder is the
nonnegative representative); a column's world coordinates are
`(x_pos * 16 + block_x, z_pos * 16 + block_z)`; writing hits exactly
that index; and the saved PNG is named by the region's coordinate
pair. -/
theorem c9_tile_canvas :
    regionImgSize = 512 ∧
    (∀ x z : Int, tileIndex x z = ((Int.emod x 512).toNat, (Int.emod z 512).toNat) ∧
      (tileIndex x z).1 < 512 ∧ (tileIndex x z).2 < 512) ∧
    (∀ x : Int, 0 ≤ Int.emod x 512 ∧ Int.emod x 512 < 512 ∧
      x = 512 * Int.ediv x 512 + Int.emod x 512) ∧
    tileIndex (-1) (-513) = (511, 511) ∧
    (∀ q, emptyCanvas q = ⟨0, 0, 0, 0⟩) ∧
    (∀ (img : Nat × Nat → Rgba) (x z : Int) (p : Rgba),
      writePixel img x z p (tileIndex x z) = p) ∧
    (∀ (img : Nat × Nat → Rgba) (x z : Int) (p : Rgba) (q : Nat × Nat),
      q ≠ tileIndex x z → writePixel img x z p q = img q) ∧
    (∀ (col : ChunkColumn) (bx bz : Nat),
      columnWorldCoords col bx bz = (col.xPos * 16 + bx, col.zPos * 16 + bz)) ∧
    pngName (-3) 7 = "r.-3.7.png" := by
  refine ⟨rfl, ?_, ?_, by decide, fun q => rfl, ?_, ?_, fun col bx bz => rfl, rfl⟩
  · intro x z
    have hx : Int.emod x (16 * 32) = x % 512 := rfl
    have hz : Int.emod z (16 * 32) = z % 512 := rfl
    refine ⟨rfl, ?_, ?_⟩
    · show (Int.emod x (16 * 32)).toNat < 512
      rw [hx]; omega
    · show (Int.emod z (16 * 32)).toNat < 512
      rw [hz]; omega
  · intro x
    have hm : Int.emod x 512 = x % 512 := rfl
    have hd : Int.ediv x 512 = x / 512 := rfl
    rw [hm, hd]
    refine ⟨?_, ?_, ?_⟩ <;> omega
  · intro img x z p
    unfold writePixel
    rw [if_pos rfl]
  · intro img x z p q hq
    unfold writePixel
    rw [if_neg hq]

/-- Witness for C9: the off-index read leaves the fresh canvas
untouched while the target index holds the written pixel. -/
theorem c9_tile_canvas_witness :
    writePixel emptyCanvas 5 7 ⟨1, 2, 3, 255⟩ (0, 0) = emptyCanvas (0, 0) ∧
    writePixel emptyCanvas 5 7 ⟨1, 2, 3, 255⟩ (tileIndex 5 7) = ⟨1, 2, 3, 255⟩ := by
  constructor
  · exact c9_tile_canvas.2.2.2.2.2.2.1 emptyCanvas 5 7 ⟨1, 2, 3, 255⟩ (0, 0) (by decide)
  · exact c9_tile_canvas.2.2.2.2.2.1 emptyCanvas 5 7 ⟨1, 2, 3, 255⟩

/-- C5: the relief comparison is a trichotomy on the column's stop Y
against the neighbor's topmost non-Clear Y (lower → Dark, equal →
Normal, higher → Light); with no resolvable neighbor (edge of the
explored world, a missing neighbor chunk, or a neighbor scan that
finds no non-Clear block) the comparison falls back to the column's
own stop Y, yielding Normal; a column resolved Clear always shades
Normal. All four neighbor sources are covered: the same-chunk row
(`block_z > 0`), the same-region chunk at `z_pos - 1`
(`z_pos.rem_euclid(32) > 0`), the threaded previous region, and the
not-on-map edge — each using the stateful find over the neighbor's
row. -/
theorem c5_relief_shading :
    (∀ y ny : Int,
      (y < ny → reliefTint y (some ny) = .Dark) ∧
      (y = ny → reliefTint y (some ny) = .Normal) ∧
      (ny < y → reliefTint y (some ny) = .Light)) ∧
    (∀ y : Int, reliefTint y none = .Normal) ∧
    (∀ (tbl : ColorTable) (region : RegionModel) (prev : Option RegionModel)
        (col : ChunkColumn) (bx bz fuel : Nat) (y : Int),
      resolveColumn tbl col bx bz fuel = some (y, MapColor.Clear) →
      processColumn tbl region prev col bx bz fuel =
        some (.drawn MapColor.Clear .Normal)) ∧
    (∀ (tbl : ColorTable) (region : RegionModel) (prev : Option RegionModel)
        (col : ChunkColumn) (bx bz fuel : Nat) (y : Int) (c0 : MapColor),
      resolveColumn tbl col bx bz fuel = some (y, c0) →
      c0 ≠ MapColor.Clear → c0 ≠ MapColor.WaterBlue → bz ≠ 0 →
      processColumn tbl region prev col bx bz fuel =
        some (.drawn
          (findTopNonClear tbl (col.blockAt bx (bz - 1))
            (revRange col.yPos (col.heightmap (bz - 1) bx)) c0).2
          (reliefTint y
            (findTopNonClear tbl (col.blockAt bx (bz - 1))
              (revRange col.yPos (col.heightmap (bz - 1) bx)) c0).1))) ∧
    (∀ (tbl : ColorTable) (region : RegionModel) (col : ChunkColumn)
        (bx fuel : Nat) (y : Int) (c0 : MapColor),
      resolveColumn tbl col bx 0 fuel = some (y, c0) →
      c0 ≠ MapColor.Clear → c0 ≠ MapColor.WaterBlue →
      Int.emod col.zPos 32 = 0 →
      processColumn tbl region none col bx 0 fuel =
        some (.drawn c0 (reliefTint y none))) ∧
    (∀ (tbl : ColorTable) (region : RegionModel) (prev : Option RegionModel)
        (col : ChunkColumn) (bx fuel : Nat) (y : Int) (c0 : MapColor),
      resolveColumn tbl col bx 0 fuel = some (y, c0) →
      c0 ≠ MapColor.Clear → c0 ≠ MapColor.WaterBlue →
      Int.emod col.zPos 32 > 0 →
      (region.chunkColumn (col.xPos, col.zPos - 1) = .ok none →
        processColumn tbl region prev col bx 0 fuel =
          some (.drawn c0 (reliefTint y none))) ∧
      (∀ ncol, region.chunkColumn (col.xPos, col.zPos - 1) = .ok (some ncol) →
        processColumn tbl region prev col bx 0 fuel =
          some (.drawn
            (findTopNonClear tbl (ncol.blockAt bx 15)
              (revRange ncol.yPos (ncol.heightmap 15 bx)) c0).2
            (reliefTint y
              (findTopNonClear tbl (ncol.blockAt bx 15)
                (revRange ncol.yPos (ncol.heightmap 15 bx)) c0).1)) ∧
        ((findTopNonClear tbl (ncol.blockAt bx 15)
            (revRange ncol.yPos (ncol.heightmap 15 bx)) c0).1 = none →
          processColumn tbl region prev col bx 0 fuel =
            some (.drawn
              (findTopNonClear tbl (ncol.blockAt bx 15)
                (revRange ncol.yPos (ncol.heightmap 15 bx)) c0).2
              .Normal)))) ∧
    (∀ (tbl : ColorTable) (region pr : RegionModel) (col : ChunkColumn)
        (bx fuel : Nat) (y : Int) (c0 : MapColor),
      resolveColumn tbl col bx 0 fuel = some (y, c0) →
      c0 ≠ MapColor.Clear → c0 ≠ MapColor.WaterBlue →
      Int.emod col.zPos 32 = 0 →
      (pr.chunkColumn (col.xPos, col.zPos - 1) = .ok none →
        processColumn tbl region (some pr) col bx 0 fuel =
          some (.drawn c0 (reliefTint y none))) ∧
      (∀ ncol, pr.chunkColumn (col.xPos, col.zPos - 1) = .ok (some ncol) →
        processColumn tbl region (some pr) col bx 0 fuel =
          some (.drawn
            (findTopNonClear tbl (ncol.blockAt bx 15)
              (revRange ncol.yPos (ncol.heightmap 15 bx)) c0).2
            (reliefTint y
              (findTopNonClear tbl (ncol.blockAt bx 15)
                (revRange ncol.yPos (ncol.heightmap 15 bx)) c0).1)) ∧
        ((findTopNonClear tbl (ncol.blockAt bx 15)
            (revRange ncol.yPos (ncol.heightmap 15 bx)) c0).1 = none →
          processColumn tbl region (some pr) col bx 0 fuel =
            some (.drawn
              (findTopNonClear tbl (ncol.blockAt bx 15)
                (revRange ncol.yPos (ncol.heightmap 15 bx)) c0).2
              .Normal)))) := by
  refine ⟨?_, ?_, ?_, ?_, ?_, ?_, ?_⟩
  · intro y ny
    refine ⟨?_, ?_, ?_⟩
    · intro h
      simp [reliefTint, Option.getD, if_pos h]
    · intro h
      subst h
      simp [reliefTint, Option.getD]
    · intro h
      simp only [reliefTint, Option.getD]
      rw [if_neg (by omega), if_neg (by omega)]
  · intro y
    simp [reliefTint, Option.getD]
  · intro tbl region prev col bx bz fuel y h
    unfold processColumn
    rw [h]
    rfl
  · intro tbl region prev col bx bz fuel y c0 h hc hw hbz
    unfold processColumn
    rw [h]
    simp only [if_neg hc, if_neg hw, if_neg hbz]
  · intro tbl region col bx fuel y c0 h hc hw hz
    unfold processColumn
    rw [h]
    simp only [if_neg hc, if_neg hw, if_pos rfl]
    rw [hz]
    simp
  · intro tbl region prev col bx fuel y c0 h hc hw hz
    refine ⟨?_, fun ncol hok => ⟨?_, fun hf => ?_⟩⟩
    · intro hok
      unfold processColumn
      rw [h]
      simp only [if_neg hc, if_neg hw, if_pos rfl, if_true, if_pos hz, hok]
    · unfold processColumn
      rw [h]
      simp only [if_neg hc, if_neg hw, if_pos rfl, if_true, if_pos hz, hok]
    · unfold processColumn
      rw [h]
      simp only [if_neg hc, if_neg hw, if_pos rfl, if_true, if_pos hz, hok]
      rw [hf]
      simp [reliefTint, Option.getD]
  · intro tbl region pr col bx fuel y c0 h hc hw hz
    have hz2 : ¬ Int.emod col.zPos 32 > 0 := by rw [hz]; omega
    refine ⟨?_, fun ncol hok => ⟨?_, fun hf => ?_⟩⟩
    · intro hok
      unfold processColumn
      rw [h]
      simp only [if_neg hc, if_neg hw, if_pos rfl, if_true, if_neg hz2, hok]
    · unfold processColumn
      rw [h]
      simp only [if_neg hc, if_neg hw, if_pos rfl, if_true, if_neg hz2, hok]
    · unfold processColumn
      rw [h]
      simp only [if_neg hc, if_neg hw, if_pos rfl, if_true, if_neg hz2, hok]
      rw [hf]
      simp [reliefTint, Option.getD]

/-- Witness for C5: the trichotomy at concrete heights; a concrete
all-unloaded column resolving Clear and shading Normal; and the three
`block_z = 0` neighbor sources at concrete inputs — a same-region
lookup with a missing neighbor chunk, a same-region lookup with a
resolvable neighbor, and a threaded-previous-region lookup whose
neighbor scan finds no non-Clear block. -/
theorem c5_relief_shading_witness :
    reliefTint 5 (some 6) = .Dark ∧
    reliefTint 7 (some 7) = .Normal ∧
    reliefTint 9 (some 7) = .Light ∧
    reliefTint 4 none = .Normal ∧
    processColumn [] regionTriv none colAllAir 0 0 3 =
      some (.drawn MapColor.Clear .Normal) ∧
    processColumn tblLeak regionTriv none colStoneMid 0 0 5 =
      some (.drawn MapColor.StoneGray (reliefTint 0 none)) ∧
    processColumn tblLeak regionWithNeighbor none colStoneMid 0 0 5 =
      some (.drawn
        (findTopNonClear tblLeak (colStoneMid.blockAt 0 15)
          (revRange colStoneMid.yPos (colStoneMid.heightmap 15 0)) MapColor.StoneGray).2
        (reliefTint 0
          (findTopNonClear tblLeak (colStoneMid.blockAt 0 15)
            (revRange colStoneMid.yPos (colStoneMid.heightmap 15 0)) MapColor.StoneGray).1)) ∧
    processColumn tblLeak regionTriv (some regionAirNeighbor) colStoneEdge 0 0 5 =
      some (.drawn
        (findTopNonClear tblLeak (colAllAir.blockAt 0 15)
          (revRange colAllAir.yPos (colAllAir.heightmap 15 0)) MapColor.StoneGray).2
        .Normal) := by
  refine ⟨?_, ?_, ?_, ?_, ?_, ?_, ?_, ?_⟩
  · exact (c5_relief_shading.1 5 6).1 (by decide)
  · exact (c5_relief_shading.1 7 7).2.1 rfl
  · exact (c5_relief_shading.1 9 7).2.2 (by decide)
  · exact c5_relief_shading.2.1 4
  · exact c5_relief_shading.2.2.1 [] regionTriv none colAllAir 0 0 3 0 rfl
  · exact (c5_relief_shading.2.2.2.2.2.1 tblLeak regionTriv none colStoneMid 0 5 0
      MapColor.StoneGray rfl (by decide) (by decide) (by decide)).1 rfl
  · exact ((c5_relief_shading.2.2.2.2.2.1 tblLeak regionWithNeighbor none colStoneMid 0 5 0
      MapColor.StoneGray rfl (by decide) (by decide) (by decide)).2 colStoneMid rfl).1
  · exact ((c5_relief_shading.2.2.2.2.2.2 tblLeak regionTriv regionAirNeighbor colStoneEdge 0 5 0
      MapColor.StoneGray rfl (by decide) (by decide) (by decide)).2 colAllAir rfl).2 rfl

/-- State elimination for the water-depth scan: the count it produces
is the length of the longest prefix satisfying the (state-independent)
per-level condition the code tests. -/
lemma waterDepthLoop_count (tbl : ColorTable) (blockAt : Int → Option Block) :
    ∀ (ys : List Int) (c : MapColor),
      (waterDepthLoop tbl blockAt ys c).1 =
        (ys.takeWhile (fun y => codeWaterCond tbl blockAt y)).length := by
  intro ys
  induction ys with
  | nil => intro c; rfl
  | cons y ys ih =>
      intro c
      unfold waterDepthLoop
      cases hb : blockAt y with
      | none => simp [List.takeWhile, codeWaterCond, hb]
      | some b =>
          cases hl : lookupColor tbl b.name with
          | none => simp [List.takeWhile, codeWaterCond, hb, hl]
          | some rule =>
              by_cases hcond : reduceBlockColor rule b = MapColor.WaterBlue ∨ b.isWaterlogged = true
              · have hbool : codeWaterCond tbl blockAt y = true := by
                  unfold codeWaterCond
                  simp only [hb, hl]
                  rcases hcond with h | h
                  · simp [h]
                  · simp [h]
                simp [List.takeWhile, hl, hcond, hbool, ih]
              · have hbool : codeWaterCond tbl blockAt y = false := by
                  unfold codeWaterCond
                  simp only [hb, hl]
                  have h1 : reduceBlockColor rule b ≠ MapColor.WaterBlue :=
                    fun hh => hcond (Or.inl hh)
                  have h2 : b.isWaterlogged = false := by
                    cases hbw : b.isWaterlogged
                    · rfl
                    · exact absurd (Or.inr hbw) hcond
                  simp [h1, h2]
                simp [List.takeWhile, hl, hcond, hbool]

/-- Going one level deeper never brightens the water tint. -/
lemma waterTint_step (d bx bz : Nat) :
    (waterTint (d + 1) bx bz).multiplier ≤ (waterTint d bx bz).multiplier := by
  by_cases h : d ≤ 9
  · interval_cases d <;> by_cases hp : (bx + bz) % 2 = 0 <;>
      simp [waterTint, hp, Tint.multiplier]
  · have e1 : waterTint (d + 1) bx bz = .Dark := by
      unfold waterTint
      rw [if_neg (by omega), if_neg (by omega), if_neg (by omega), if_neg (by omega)]
    have e2 : waterTint d bx bz = .Dark := by
      unfold waterTint
      rw [if_neg (by omega), if_neg (by omega), if_neg (by omega), if_neg (by omega)]
    rw [e1, e2]

/-- C4 counterexample: the claim counts a level whose block has
`waterlogged = "true"` even when its identifier is absent from the
Color Table, but the code's `let Some(&color) = ... else { return
false }` (main.rs line 312) stops the count there. With water at y = 1
over an off-table waterlogged block at y = 0, the code's depth is 1
while the claimed depth is 2. -/
theorem c4_depth_condition_counterexample :
    (waterDepthLoop tblWater blockAtWater (revRange 0 1) MapColor.WaterBlue).1 = 1 ∧
    claimedWaterDepth tblWater blockAtWater (revRange 0 1) = 2 ∧
    (1 : Nat) ≠ 2 := ⟨by decide, by decide, by decide⟩

/-- C4 (amended): the depth is the count of consecutive levels, from
the scan's stop Y downward, whose block is PRESENT in the Color Table
and re-resolves to WaterBlue or carries `waterlogged = "true"`,
stopping at the first level breaking this condition or at an unloaded
section; the threshold table maps depth to tint exactly as claimed,
and at fixed parity the tint brightness is non-increasing in depth;
the water branch of the column pipeline applies exactly this depth and
table. -/
theorem c4_water_depth_and_tint :
    (∀ (tbl : ColorTable) (blockAt : Int → Option Block) (ys : List Int) (c : MapColor),
      (waterDepthLoop tbl blockAt ys c).1 =
        (ys.takeWhile (fun y => codeWaterCond tbl blockAt y)).length) ∧
    (∀ d bx bz : Nat,
      (d ≤ 2 → waterTint d bx bz = .Light) ∧
      (3 ≤ d → d ≤ 4 → waterTint d bx bz =
        (if (bx + bz) % 2 = 0 then .Light else .Normal)) ∧
      (5 ≤ d → d ≤ 6 → waterTint d bx bz = .Normal) ∧
      (7 ≤ d → d ≤ 9 → waterTint d bx bz =
        (if (bx + bz) % 2 = 0 then .Normal else .Dark)) ∧
      (10 ≤ d → waterTint d bx bz = .Dark)) ∧
    (∀ (bx bz d1 d2 : Nat), d1 ≤ d2 →
      (waterTint d2 bx bz).multiplier ≤ (waterTint d1 bx bz).multiplier) ∧
    (∀ (tbl : ColorTable) (region : RegionModel) (prev : Option RegionModel)
        (col : ChunkColumn) (bx bz fuel : Nat) (y : Int),
      resolveColumn tbl col bx bz fuel = some (y, MapColor.WaterBlue) →
      processColumn tbl region prev col bx bz fuel =
        some (.drawn
          (waterDepthLoop tbl (col.blockAt bx bz) (revRange col.yPos y) MapColor.WaterBlue).2
          (waterTint
            (waterDepthLoop tbl (col.blockAt bx bz) (revRange col.yPos y) MapColor.WaterBlue).1
            bx bz))) := by
  refine ⟨waterDepthLoop_count, ?_, ?_, ?_⟩
  · intro d bx bz
    refine ⟨?_, ?_, ?_, ?_, ?_⟩
    · intro h1
      unfold waterTint
      rw [if_pos h1]
    · intro h1 h2
      unfold waterTint
      rw [if_neg (by omega), if_pos h2]
    · intro h1 h2
      unfold waterTint
      rw [if_neg (by omega), if_neg (by omega), if_pos h2]
    · intro h1 h2
      unfold waterTint
      rw [if_neg (by omega), if_neg (by omega), if_neg (by omega), if_pos h2]
    · intro h1
      unfold waterTint
      rw [if_neg (by omega), if_neg (by omega), if_neg (by omega), if_neg (by omega)]
  · intro bx bz d1 d2 hle
    induction d2, hle using Nat.le_induction with
    | base => exact le_refl _
    | succ n hn ih => exact le_trans (waterTint_step n bx bz) ih
  · intro tbl region prev col bx bz fuel y h
    unfold processColumn
    rw [h]
    rfl

/-- Witness for C4 at a concrete all-water column and concrete depths. -/
theorem c4_water_depth_and_tint_witness :
    waterTint 1 0 0 = .Light ∧
    waterTint 10 3 4 = .Dark ∧
    (waterTint 10 0 1).multiplier ≤ (waterTint 1 0 1).multiplier ∧
    processColumn tblWater regionTriv none colWater 0 0 5 =
      some (.drawn
        (waterDepthLoop tblWater (colWater.blockAt 0 0) (revRange colWater.yPos 1) MapColor.WaterBlue).2
        (waterTint
          (waterDepthLoop tblWater (colWater.blockAt 0 0) (revRange colWater.yPos 1) MapColor.WaterBlue).1
          0 0)) := by
  refine ⟨?_, ?_, ?_, ?_⟩
  · exact (c4_water_depth_and_tint.2.1 1 0 0).1 (by decide)
  · exact (c4_water_depth_and_tint.2.1 10 3 4).2.2.2.2 (by decide)
  · exact c4_water_depth_and_tint.2.2.1 0 1 1 10 (by decide)
  · exact c4_water_depth_and_tint.2.2.2 tblWater regionTriv none colWater 0 0 5 1 rfl

/-- Membership in a sorted insertion. -/
lemma mem_insertSorted (z a : Int) :
    ∀ zs, a ∈ insertSorted z zs → a = z ∨ a ∈ zs := by
  intro zs
  induction zs with
  | nil =>
      intro h
      simp [insertSorted] at h
      exact Or.inl h
  | cons x rest ih =>
      intro h
      unfold insertSorted at h
      by_cases h1 : z < x
      · rw [if_pos h1] at h
        rcases List.mem_cons.mp h with h2 | h2
        · exact Or.inl h2
        · exact Or.inr h2
      · rw [if_neg h1] at h
        by_cases h2 : z = x
        · rw [if_pos h2] at h
          exact Or.inr h
        · rw [if_neg h2] at h
          rcases List.mem_cons.mp h with h3 | h3
          · exact Or.inr (List.mem_cons.mpr (Or.inl h3))
          · rcases ih h3 with h4 | h4
            · exact Or.inl h4
            · exact Or.inr (List.mem_cons.mpr (Or.inr h4))

/-- `BTreeSet::insert` keeps the z set strictly ascending. -/
lemma insertSorted_pairwise (z : Int) :
    ∀ zs, zs.Pairwise (· < ·) → (insertSorted z zs).Pairwise (· < ·) := by
  intro zs
  induction zs with
  | nil =>
      intro _
      simp [insertSorted]
  | cons x rest ih =>
      intro hp
      obtain ⟨hx, hrest⟩ := List.pairwise_cons.mp hp
      unfold insertSorted
      by_cases h1 : z < x
      · rw [if_pos h1]
        refine List.pairwise_cons.mpr ⟨?_, hp⟩
        intro b hb
        rcases List.mem_cons.mp hb with h2 | h2
        · omega
        · exact lt_trans h1 (hx b h2)
      · rw [if_neg h1]
        by_cases h2 : z = x
        · rw [if_pos h2]
          exact hp
        · rw [if_neg h2]
          refine List.pairwise_cons.mpr ⟨?_, ih hrest⟩
          intro b hb
          rcases mem_insertSorted z b rest hb with h3 | h3
          · omega
          · exact hx b h3

/-- On an all-success group, `runGroup` threads `prev` region by region:
the trace it appends pairs each region with the coordinates of the
region processed immediately before it, the PNGs are saved in list
order, and no error is recorded. -/
lemma runGroup_allOk (w : WorldModel) (x : Int) :
    ∀ (zs : List Int) (prev : Option SchedRegion) (s : GroupState),
      (∀ z ∈ zs, ∃ r, w.find x z = .found r ∧ r.coords = (x, z) ∧
        firstColErr r.colResults = none) →
      runGroup w x zs prev s =
        ({ s with
            prevTrace := s.prevTrace ++ chainTrace x zs (Option.map SchedRegion.coords prev),
            pngs := s.pngs ++ zs.map (fun z => (x, z)) }, none) := by
  intro zs
  induction zs with
  | nil =>
      intro prev s _
      simp [runGroup, chainTrace]
  | cons z zs ih =>
      intro prev s hall
      obtain ⟨r, hf, hc, hcols⟩ := hall z (List.mem_cons_self z zs)
      have htail : ∀ z' ∈ zs, ∃ r', w.find x z' = .found r' ∧ r'.coords = (x, z') ∧
          firstColErr r'.colResults = none :=
        fun z' hz' => hall z' (List.mem_cons.mpr (Or.inr hz'))
      unfold runGroup
      rw [hf]
      simp only [hcols]
      rw [ih (some r) _ htail]
      simp [chainTrace, hc, List.append_assoc]

/-- Index characterization of the handle trace: entry `n` pairs the
`n`-th region with the coordinates of the `(n-1)`-th one (the first
entry carries the group's starting handle). -/
lemma chainTrace_get? (x : Int) :
    ∀ (zs : List Int) (p : Option (Int × Int)) (n : Nat),
      (chainTrace x zs p).get? n =
        (zs.get? n).map (fun z =>
          ((x, z), if n = 0 then p else (zs.get? (n - 1)).map (fun a => (x, a)))) := by
  intro zs
  induction zs with
  | nil => intro p n; simp [chainTrace]
  | cons z zs ih =>
      intro p n
      cases n with
      | zero => simp [chainTrace]
      | succ m =>
          simp only [chainTrace, List.get?_cons_succ]
          rw [ih (some (x, z)) m]
          cases m with
          | zero => simp
          | succ k => simp

/-- C6 counterexample: the claim says the handle in scope on a
northern-edge lookup is the region immediately north, `[rx, rz-1]`,
and that a column is treated as having no north neighbor when that
region was not processed. In a group whose z set is `{0, 2}` (a gap at
z = 1), the code's handle while region (0, 2) is drawn is region
(0, 0) — the previously processed region — not `[0, 1]` and not
absent. -/
theorem c6_prev_handle_counterexample :
    ¬ prevIsImmediateNorth [0, 2]
        (runAll wAllOk [(0, [0, 2])] GroupState.init).1.prevTrace := by
  unfold prevIsImmediateNorth
  decide

/-- C6 (amended): within a group, regions are processed strictly in
ascending z order (the z set is kept strictly sorted by insertion),
and the previous-region handle in scope while a region is drawn is the
region processed immediately before it in that order — which is
`[rx, rz-1]` exactly when that coordinate is in the group — and the
first region of a group has no handle. -/
theorem c6_prev_threading :
    (∀ (z : Int) (zs : List Int), zs.Pairwise (· < ·) →
      (insertSorted z zs).Pairwise (· < ·)) ∧
    (∀ (w : WorldModel) (x : Int) (zs : List Int) (s : GroupState),
      (∀ z ∈ zs, ∃ r, w.find x z = .found r ∧ r.coords = (x, z) ∧
        firstColErr r.colResults = none) →
      (runGroup w x zs none s).1.prevTrace = s.prevTrace ++ chainTrace x zs none ∧
      (runGroup w x zs none s).2 = none) ∧
    (∀ (x : Int) (zs : List Int) (n : Nat),
      (chainTrace x zs none).get? (n + 1) =
        (zs.get? (n + 1)).map (fun z => ((x, z), (zs.get? n).map (fun a => (x, a)))) ∧
      (chainTrace x zs none).get? 0 =
        (zs.get? 0).map (fun z => ((x, z), none))) := by
  refine ⟨insertSorted_pairwise, ?_, ?_⟩
  · intro w x zs s hall
    rw [runGroup_allOk w x zs none s hall]
    exact ⟨rfl, rfl⟩
  · intro x zs n
    constructor
    · rw [chainTrace_get? x zs none (n + 1)]
      simp
    · rw [chainTrace_get? x zs none 0]
      simp

/-- Witness for C6: the amended description at the gapped group
`{0, 2}` and a concrete sorted insertion. -/
theorem c6_prev_threading_witness :
    (insertSorted 1 [0, 2]).Pairwise (· < ·) ∧
    (runAll wAllOk [(0, [0, 2])] GroupState.init).1.prevTrace =
      [((0, 0), none), ((0, 2), some (0, 0))] := by
  constructor
  · exact c6_prev_threading.1 1 [0, 2] (by decide)
  · have h := (c6_prev_threading.2.1 wAllOk 0 [0, 2] GroupState.init
      (fun z hz => ⟨⟨(0, z), []⟩, rfl, rfl, rfl⟩)).1
    have e : (runAll wAllOk [(0, [0, 2])] GroupState.init).1.prevTrace =
        (runGroup wAllOk 0 [0, 2] none GroupState.init).1.prevTrace := by
      rw [runGroup_allOk wAllOk 0 [0, 2] none GroupState.init
        (fun z hz => ⟨⟨(0, z), []⟩, rfl, rfl, rfl⟩)]
      rfl
    rw [e, h]
    rfl
